import Mathlib

/-!
Verification of the RankZen outreach automation code (`app/` package).

The definitions below are a shallow embedding of the Python sources:

* `app/form_submitter.py` — `FormSubmitter` (form location, field mapping,
  CAPTCHA handling, submission-outcome classification);
* `app/captcha_solver.py` — `CaptchaSolver` (2Captcha polling loops);
* `app/discovery.py` — `RateLimiter`.

Python strings are `String`, `dict[str, str]` is the function type
`String → Option String` (insertion order is irrelevant to the properties
proved here), attribute lookups that may fail (`tag.get('x')`) are
`Option String`, and Python truthiness of optional strings/dicts is made
explicit (`optTruthy`, `optListTruthy`).  Wall-clock time in the rate
limiter is modelled by an explicit clock of type `Rat`; `time.sleep(d)`
advances the clock by `d`.
-/

/-! ## String helpers: Python `needle in haystack` and `str.lower()` -/

/-- `isPrefixL ns hs` is true when the char list `ns` is a prefix of `hs`. -/
def isPrefixL : List Char → List Char → Bool
  | [], _ => true
  | _ :: _, [] => false
  | a :: as, b :: bs => a == b && isPrefixL as bs

/-- `containsSub hay needle`: the char list `needle` occurs contiguously in
`hay` (Python's `needle in hay` on strings; the empty needle occurs in
everything). -/
def containsSub : List Char → List Char → Bool
  | [], needle => needle.isEmpty
  | a :: as, needle => isPrefixL needle (a :: as) || containsSub as needle

/-- Python `needle in hay` for `String`. -/
def strContains (hay needle : String) : Bool :=
  containsSub hay.toList needle.toList

/-- Python `s.lower()` (ASCII case folding, which covers every string the
program compares against). -/
def lowerStr (s : String) : String :=
  String.mk (s.toList.map Char.toLower)

/-- An occurrence of `xs ++ ys` as a prefix yields an occurrence of `ys`. -/
theorem containsSub_of_isPrefixL_append :
    ∀ (xs ys hay : List Char), isPrefixL (xs ++ ys) hay = true →
      containsSub hay ys = true := by
  intro xs
  induction xs with
  | nil =>
    intro ys hay h
    cases hay with
    | nil =>
      cases ys with
      | nil => rfl
      | cons c cs => simp [isPrefixL] at h
    | cons b bs =>
      simp only [List.nil_append] at h
      simp [containsSub, h]
  | cons x xt ih =>
    intro ys hay h
    cases hay with
    | nil => simp [isPrefixL] at h
    | cons b bs =>
      simp only [List.cons_append, isPrefixL, Bool.and_eq_true] at h
      have := ih ys bs h.2
      simp [containsSub, this]

/-- If `hay` contains `xs ++ ys` then it contains `ys`. -/
theorem containsSub_append_right :
    ∀ (hay xs ys : List Char), containsSub hay (xs ++ ys) = true →
      containsSub hay ys = true := by
  intro hay
  induction hay with
  | nil =>
    intro xs ys h
    simp only [containsSub, List.isEmpty_eq_true, List.append_eq_nil] at h
    simp [containsSub, h.2]
  | cons a as ih =>
    intro xs ys h
    simp only [containsSub, Bool.or_eq_true] at h
    rcases h with h | h
    · exact containsSub_of_isPrefixL_append xs ys (a :: as) h
    · have := ih xs ys h
      simp [containsSub, this]

/-- A string containing `"inquiry received"` contains `"received"`. -/
theorem strContains_received_of_inquiry (hay : String)
    (h : strContains hay "inquiry received" = true) :
    strContains hay "received" = true := by
  have hsplit : ("inquiry received" : String).toList =
      ("inquiry " : String).toList ++ ("received" : String).toList := by decide
  unfold strContains at h ⊢
  rw [hsplit] at h
  exact containsSub_append_right _ _ _ h

/-! ## `FormSubmitter._check_submission_success` (form_submitter.py 278-308) -/

/-- Success phrases searched for in the response body
(form_submitter.py 285-288). -/
def success_indicators : List String :=
  ["thank you", "success", "submitted", "received", "sent",
   "confirmation", "message sent", "inquiry received"]

/-- Error phrases searched for in the response body
(form_submitter.py 290-293). -/
def error_indicators : List String :=
  ["error", "failed", "invalid", "required", "missing",
   "incorrect", "wrong", "try again"]

/-- `FormSubmitter._check_submission_success`: status-code gate, then error
phrases, then success phrases, then the optimistic 200/201 default
(form_submitter.py 278-308). -/
def check_submission_success (status : Nat) (text : String) : Bool :=
  if status ∈ ([200, 201, 302, 303] : List Nat) then
    let rt := lowerStr text
    if error_indicators.any (fun e => strContains rt e) then false
    else if success_indicators.any (fun s => strContains rt s) then true
    else decide (status ∈ ([200, 201] : List Nat))
  else false

/-- The outcome classifier exactly as the spec sentence of claim C1 words
it: the error-phrase list lacks `"wrong"` and the success-phrase list lacks
`"inquiry received"`. -/
def claim_outcome_classifier (status : Nat) (text : String) : Bool :=
  if status ∈ ([200, 201, 302, 303] : List Nat) then
    let rt := lowerStr text
    if (["error", "failed", "invalid", "required", "missing",
         "incorrect", "try again"] : List String).any
        (fun e => strContains rt e) then false
    else if (["thank you", "success", "submitted", "received", "sent",
              "confirmation", "message sent"] : List String).any
        (fun s => strContains rt s) then true
    else decide (status ∈ ([200, 201] : List Nat))
  else false

/-- The amended classifier of claim C1: as the claim words it, except that
the error-phrase list additionally contains `"wrong"` (the phrase the code
checks and the claim omits). -/
def amended_outcome_classifier (status : Nat) (text : String) : Bool :=
  if status ∈ ([200, 201, 302, 303] : List Nat) then
    let rt := lowerStr text
    if (["error", "failed", "invalid", "required", "missing",
         "incorrect", "wrong", "try again"] : List String).any
        (fun e => strContains rt e) then false
    else if (["thank you", "success", "submitted", "received", "sent",
              "confirmation", "message sent"] : List String).any
        (fun s => strContains rt s) then true
    else decide (status ∈ ([200, 201] : List Nat))
  else false

/-- The code's success-phrase scan agrees with the claim's shorter list:
the extra phrase `"inquiry received"` is subsumed by `"received"`. -/
theorem success_any_eq (rt : String) :
    success_indicators.any (fun s => strContains rt s) =
      (["thank you", "success", "submitted", "received", "sent",
        "confirmation", "message sent"] : List String).any
        (fun s => strContains rt s) := by
  simp only [success_indicators, List.any_cons, List.any_nil, Bool.or_false]
  cases hir : strContains rt "inquiry received" with
  | false => simp
  | true =>
    have hrec := strContains_received_of_inquiry rt hir
    simp [hrec]

/-- C1 counterexample: a status-200 response whose body is exactly
`"wrong"` contains none of the claim's error phrases and none of its
success phrases, so the claim's classifier reports success, yet the code
reports failure because its error-phrase list also contains `"wrong"`. -/
theorem c1_counterexample :
    claim_outcome_classifier 200 "wrong" = true ∧
      check_submission_success 200 "wrong" = false := by
  constructor
  · decide
  · decide

/-- C1 (amended): the outcome classifier fails on any status outside
{200, 201, 302, 303}; otherwise it fails when the lowercased body contains
an error phrase (error, failed, invalid, required, missing, incorrect,
wrong, try again — the claim's list plus `"wrong"`), checking error
phrases before success phrases; otherwise it succeeds when the body
contains a success phrase (thank you, success, submitted, received, sent,
confirmation, message sent); otherwise it succeeds exactly on status 200
or 201. -/
theorem c1_classifier_matches_amended_claim (status : Nat) (text : String) :
    check_submission_success status text =
      amended_outcome_classifier status text := by
  simp only [check_submission_success, amended_outcome_classifier,
    error_indicators, success_any_eq]

/-- C10: a 302/303 response whose body contains no recognized error phrase
and no recognized success phrase is classified as a failed submission —
the optimistic no-signal default applies only to statuses 200 and 201. -/
theorem c10_silent_redirect_fails (status : Nat) (text : String)
    (hst : status = 302 ∨ status = 303)
    (herr : error_indicators.any (fun e => strContains (lowerStr text) e) = false)
    (hsucc : success_indicators.any (fun s => strContains (lowerStr text) s) = false) :
    check_submission_success status text = false := by
  rcases hst with h | h <;> subst h <;>
    simp [check_submission_success, herr, hsucc]

/-- C10 witness: a concrete silent redirect (status 302, body
`"redirecting"`) is classified as failure. -/
theorem c10_silent_redirect_fails_witness :
    check_submission_success 302 "redirecting" = false :=
  c10_silent_redirect_fails 302 "redirecting" (Or.inl rfl)
    (by decide) (by decide)

/-! ## `FormSubmitter._get_field_value` (form_submitter.py 214-234) -/

/-- The subject/message content used to fill a form
(`models.OutreachMessage`, the two fields the field mapper reads). -/
structure Msg where
  subject : String
  message : String
deriving DecidableEq

/-- The `field_mappings` dict of `_prepare_form_data`
(form_submitter.py 155-168), in its Python insertion order. -/
def field_mappings (msg : Msg) : List (String × String) :=
  [("name", "John Smith"),
   ("email", "john.smith@example.com"),
   ("phone", "555-123-4567"),
   ("subject", msg.subject),
   ("message", msg.message),
   ("comment", msg.message),
   ("inquiry", msg.message),
   ("content", msg.message),
   ("description", msg.message),
   ("details", msg.message),
   ("company", "SEO Consulting"),
   ("website", "https://example.com")]

/-- The first loop of `_get_field_value`: return the value of the first
mapping whose key occurs in the lowercased field name
(form_submitter.py 218-220). -/
def findMapping (fl : String) : List (String × String) → Option String
  | [] => none
  | (k, v) :: rest => if strContains fl k then some v else findMapping fl rest

/-- `FormSubmitter._get_field_value` (form_submitter.py 214-234): the
mapping loop, then the hard-coded fallback pattern chain. -/
def get_field_value (fieldName : String) (msg : Msg) : Option String :=
  let fl := lowerStr fieldName
  match findMapping fl (field_mappings msg) with
  | some v => some v
  | none =>
    if strContains fl "name" then some "John Smith"
    else if strContains fl "email" then some "john.smith@example.com"
    else if strContains fl "phone" || strContains fl "tel" then
      some "555-123-4567"
    else if strContains fl "subject" then some msg.subject
    else if strContains fl "message" || strContains fl "comment" ||
        strContains fl "inquiry" || strContains fl "content" then
      some msg.message
    else none

/-! ## `FormSubmitter._prepare_form_data` (form_submitter.py 150-212) -/

/-- An `<input>` element as the submitter reads it: each attribute is
`none` when absent from the markup. -/
structure InputField where
  itype : Option String
  name : Option String
  value : Option String
  checked : Option String
  placeholder : Option String
deriving DecidableEq

/-- A `<textarea>` element (only its `name` attribute is read). -/
structure TextAreaField where
  name : Option String
deriving DecidableEq

/-- A `<select>` element: its `name` and the `value` attributes of its
`<option>` children in document order. -/
structure SelectField where
  name : Option String
  options : List (Option String)
deriving DecidableEq

/-- A `<form>` element as `FormSubmitter` reads it. -/
structure FormElem where
  action : Option String
  id : Option String
  classes : List String
  inputs : List InputField
  textareas : List TextAreaField
  selects : List SelectField
deriving DecidableEq

/-- Python truthiness of an optional string: `None` and `''` are falsy. -/
def optTruthy : Option String → Bool
  | none => false
  | some s => !(s == "")

/-- The `form_data` dict under construction. -/
def FMap : Type := String → Option String

/-- The empty dict. -/
def mEmpty : FMap := fun _ => none

/-- `d[k] = v` on a Python dict. -/
def mUpd (m : FMap) (k v : String) : FMap :=
  fun k' => if k' = k then some v else m k'

/-- `input_field.get('name', '')`. -/
def inputName (f : InputField) : String := (f.name).getD ""

/-- `input_field.get('type', 'text').lower()`. -/
def inputType (f : InputField) : String := lowerStr ((f.itype).getD "text")

/-- `textarea.get('name', '')`. -/
def taName (t : TextAreaField) : String := (t.name).getD ""

/-- `select.get('name', '')`. -/
def selName (s : SelectField) : String := (s.name).getD ""

/-- One iteration of the `<input>` loop of `_prepare_form_data`
(form_submitter.py 176-194): skip nameless fields; text-like fields get a
mapped value when one is truthy; hidden fields are copied through;
checkbox/radio fields get their value (default `"on"`) when checked or
when they are checkboxes. -/
def processInput (msg : Msg) (m : FMap) (f : InputField) : FMap :=
  if inputName f = "" then m
  else if inputType f = "text" ∨ inputType f = "email" ∨ inputType f = "tel" then
    if optTruthy (get_field_value (inputName f) msg) = true then
      mUpd m (inputName f) ((get_field_value (inputName f) msg).getD "")
    else m
  else if inputType f = "hidden" then
    mUpd m (inputName f) ((f.value).getD "")
  else if inputType f = "checkbox" ∨ inputType f = "radio" then
    if optTruthy f.checked = true ∨ inputType f = "checkbox" then
      mUpd m (inputName f) ((f.value).getD "on")
    else m
  else m

/-- One iteration of the `<textarea>` loop (form_submitter.py 197-201):
every named textarea receives the outreach message body. -/
def processTextarea (msg : Msg) (m : FMap) (t : TextAreaField) : FMap :=
  if taName t = "" then m else mUpd m (taName t) msg.message

/-- One iteration of the `<select>` loop (form_submitter.py 204-210):
every named select receives its first option's value (default `''`);
selects with no option are skipped. -/
def processSelect (m : FMap) (s : SelectField) : FMap :=
  if selName s = "" then m
  else
    match s.options.head? with
    | some v => mUpd m (selName s) (v.getD "")
    | none => m

/-- `FormSubmitter._prepare_form_data` (form_submitter.py 150-212):
inputs, then textareas, then selects, folded over an initially empty
dict. -/
def prepare_form_data (form : FormElem) (msg : Msg) : FMap :=
  let m1 := form.inputs.foldl (processInput msg) mEmpty
  let m2 := form.textareas.foldl (processTextarea msg) m1
  form.selects.foldl processSelect m2

/-! ### Pointwise behaviour of the three field-mapper loops -/

/-- A loop iteration never touches a key other than its own field name. -/
theorem processInput_apply_ne (msg : Msg) (m : FMap) (f : InputField)
    (k : String) (h : inputName f ≠ k) :
    processInput msg m f k = m k := by
  unfold processInput
  split_ifs <;>
    first
      | rfl
      | (simp only [mUpd]; rw [if_neg (Ne.symm h)])

/-- A textarea iteration never touches a key other than its own name. -/
theorem processTextarea_apply_ne (msg : Msg) (m : FMap) (t : TextAreaField)
    (k : String) (h : taName t ≠ k) :
    processTextarea msg m t k = m k := by
  unfold processTextarea
  split_ifs <;>
    first
      | rfl
      | (simp only [mUpd]; rw [if_neg (Ne.symm h)])

/-- A select iteration never touches a key other than its own name. -/
theorem processSelect_apply_ne (m : FMap) (s : SelectField)
    (k : String) (h : selName s ≠ k) :
    processSelect m s k = m k := by
  unfold processSelect
  split_ifs with h1
  · rfl
  · cases ho : s.options.head? with
    | none => rfl
    | some v =>
      simp only [mUpd]
      rw [if_neg (Ne.symm h)]

/-- No input iteration ever writes the empty key. -/
theorem processInput_apply_empty (msg : Msg) (m : FMap) (f : InputField) :
    processInput msg m f "" = m "" := by
  by_cases h : inputName f = ""
  · unfold processInput
    rw [if_pos h]
  · exact processInput_apply_ne msg m f "" h

/-- No textarea iteration ever writes the empty key. -/
theorem processTextarea_apply_empty (msg : Msg) (m : FMap) (t : TextAreaField) :
    processTextarea msg m t "" = m "" := by
  by_cases h : taName t = ""
  · unfold processTextarea
    rw [if_pos h]
  · exact processTextarea_apply_ne msg m t "" h

/-- No select iteration ever writes the empty key. -/
theorem processSelect_apply_empty (m : FMap) (s : SelectField) :
    processSelect m s "" = m "" := by
  by_cases h : selName s = ""
  · unfold processSelect
    rw [if_pos h]
  · exact processSelect_apply_ne m s "" h

/-- The whole input loop leaves the empty key unmapped. -/
theorem foldl_processInput_empty (msg : Msg) :
    ∀ (l : List InputField) (m : FMap),
      (l.foldl (processInput msg) m) "" = m "" := by
  intro l
  induction l with
  | nil => intro m; rfl
  | cons g t ih =>
    intro m
    simp only [List.foldl_cons]
    rw [ih, processInput_apply_empty]

/-- The whole textarea loop leaves the empty key unmapped. -/
theorem foldl_processTextarea_empty (msg : Msg) :
    ∀ (l : List TextAreaField) (m : FMap),
      (l.foldl (processTextarea msg) m) "" = m "" := by
  intro l
  induction l with
  | nil => intro m; rfl
  | cons g t ih =>
    intro m
    simp only [List.foldl_cons]
    rw [ih, processTextarea_apply_empty]

/-- The whole select loop leaves the empty key unmapped. -/
theorem foldl_processSelect_empty :
    ∀ (l : List SelectField) (m : FMap),
      (l.foldl processSelect m) "" = m "" := by
  intro l
  induction l with
  | nil => intro m; rfl
  | cons g t ih =>
    intro m
    simp only [List.foldl_cons]
    rw [ih, processSelect_apply_empty]

/-- C9: the map built by `_prepare_form_data` never contains an empty key:
every input, textarea and select whose `name` attribute is missing or
empty is skipped and contributes no entry. -/
theorem c9_no_empty_key (form : FormElem) (msg : Msg) :
    prepare_form_data form msg "" = none := by
  unfold prepare_form_data
  rw [foldl_processSelect_empty, foldl_processTextarea_empty,
    foldl_processInput_empty]
  rfl

/-- A checkbox with a name is always written, `checked` or not: the guard
`input_field.get('checked') or input_type == 'checkbox'`
(form_submitter.py 193) is true for every checkbox. -/
theorem processInput_checkbox (msg : Msg) (m : FMap) (f : InputField)
    (ht : inputType f = "checkbox") (hn : inputName f ≠ "") :
    processInput msg m f = mUpd m (inputName f) ((f.value).getD "on") := by
  unfold processInput
  rw [if_neg hn, if_neg (by rw [ht]; decide), if_neg (by rw [ht]; decide),
    if_pos (Or.inl ht), if_pos (Or.inr ht)]

/-- A hidden field with a name is copied through verbatim
(form_submitter.py 188-190). -/
theorem processInput_hidden (msg : Msg) (m : FMap) (f : InputField)
    (ht : inputType f = "hidden") (hn : inputName f ≠ "") :
    processInput msg m f = mUpd m (inputName f) ((f.value).getD "") := by
  unfold processInput
  rw [if_neg hn, if_neg (by rw [ht]; decide), if_pos ht]

/-- Keys already present survive any input iteration. -/
theorem processInput_pres (msg : Msg) (m : FMap) (f : InputField)
    (k : String) (h : (m k).isSome = true) :
    ((processInput msg m f) k).isSome = true := by
  unfold processInput
  split_ifs <;>
    first
      | exact h
      | (simp only [mUpd]; split_ifs <;> first | rfl | exact h)

/-- Keys already present survive any textarea iteration. -/
theorem processTextarea_pres (msg : Msg) (m : FMap) (t : TextAreaField)
    (k : String) (h : (m k).isSome = true) :
    ((processTextarea msg m t) k).isSome = true := by
  unfold processTextarea
  split_ifs <;>
    first
      | exact h
      | (simp only [mUpd]; split_ifs <;> first | rfl | exact h)

/-- Keys already present survive any select iteration. -/
theorem processSelect_pres (m : FMap) (s : SelectField)
    (k : String) (h : (m k).isSome = true) :
    ((processSelect m s) k).isSome = true := by
  unfold processSelect
  split_ifs with h1
  · exact h
  · cases ho : s.options.head? with
    | none => exact h
    | some v =>
      simp only [mUpd]
      split_ifs <;> first | rfl | exact h

/-- Keys already present survive the whole input loop. -/
theorem foldl_processInput_pres (msg : Msg) (k : String) :
    ∀ (l : List InputField) (m : FMap), (m k).isSome = true →
      ((l.foldl (processInput msg) m) k).isSome = true := by
  intro l
  induction l with
  | nil => intro m h; exact h
  | cons g t ih =>
    intro m h
    simp only [List.foldl_cons]
    exact ih _ (processInput_pres msg m g k h)

/-- Keys already present survive the whole textarea loop. -/
theorem foldl_processTextarea_pres (msg : Msg) (k : String) :
    ∀ (l : List TextAreaField) (m : FMap), (m k).isSome = true →
      ((l.foldl (processTextarea msg) m) k).isSome = true := by
  intro l
  induction l with
  | nil => intro m h; exact h
  | cons g t ih =>
    intro m h
    simp only [List.foldl_cons]
    exact ih _ (processTextarea_pres msg m g k h)

/-- Keys already present survive the whole select loop. -/
theorem foldl_processSelect_pres (k : String) :
    ∀ (l : List SelectField) (m : FMap), (m k).isSome = true →
      ((l.foldl processSelect m) k).isSome = true := by
  intro l
  induction l with
  | nil => intro m h; exact h
  | cons g t ih =>
    intro m h
    simp only [List.foldl_cons]
    exact ih _ (processSelect_pres m g k h)

/-- Once a checkbox of the input list is processed, its key stays in the
map through the rest of the input loop. -/
theorem foldl_processInput_mem_checkbox (msg : Msg) (f : InputField)
    (ht : inputType f = "checkbox") (hn : inputName f ≠ "") :
    ∀ (l : List InputField) (m : FMap), f ∈ l →
      ((l.foldl (processInput msg) m) (inputName f)).isSome = true := by
  intro l
  induction l with
  | nil => intro m h; exact absurd h (List.not_mem_nil f)
  | cons g t ih =>
    intro m h
    simp only [List.foldl_cons]
    rcases List.mem_cons.mp h with heq | hmem
    · subst heq
      apply foldl_processInput_pres
      rw [processInput_checkbox msg m f ht hn]
      simp [mUpd]
    · exact ih _ hmem

/-- The whole textarea loop never touches a key no textarea is named
after. -/
theorem foldl_processTextarea_ne (msg : Msg) (k : String) :
    ∀ (l : List TextAreaField) (m : FMap), (∀ t ∈ l, taName t ≠ k) →
      (l.foldl (processTextarea msg) m) k = m k := by
  intro l
  induction l with
  | nil => intro m _; rfl
  | cons g t ih =>
    intro m h
    simp only [List.foldl_cons]
    rw [ih _ (fun x hx => h x (List.mem_cons_of_mem _ hx)),
      processTextarea_apply_ne msg m g k (h g (List.mem_cons_self _ _))]

/-- The whole select loop never touches a key no select is named after. -/
theorem foldl_processSelect_ne (k : String) :
    ∀ (l : List SelectField) (m : FMap), (∀ s ∈ l, selName s ≠ k) →
      (l.foldl processSelect m) k = m k := by
  intro l
  induction l with
  | nil => intro m _; rfl
  | cons g t ih =>
    intro m h
    simp only [List.foldl_cons]
    rw [ih _ (fun x hx => h x (List.mem_cons_of_mem _ hx)),
      processSelect_apply_ne m g k (h g (List.mem_cons_self _ _))]

/-- If the map already holds a hidden field's value under its name, and
every remaining input with that name is that same field, the value
survives the rest of the input loop. -/
theorem foldl_processInput_keep (msg : Msg) (f : InputField)
    (ht : inputType f = "hidden") (hn : inputName f ≠ "") :
    ∀ (l : List InputField) (m : FMap),
      m (inputName f) = some ((f.value).getD "") →
      (∀ g ∈ l, inputName g = inputName f → g = f) →
      (l.foldl (processInput msg) m) (inputName f) =
        some ((f.value).getD "") := by
  intro l
  induction l with
  | nil => intro m hm _; exact hm
  | cons g t ih =>
    intro m hm hol
    simp only [List.foldl_cons]
    apply ih
    · by_cases hg : inputName g = inputName f
      · have hgf : g = f := hol g (List.mem_cons_self _ _) hg
        subst hgf
        rw [processInput_hidden msg m g ht hn]
        simp [mUpd]
      · rw [processInput_apply_ne msg m g _ hg]
        exact hm
    · intro x hx he
      exact hol x (List.mem_cons_of_mem _ hx) he

/-- If a hidden field occurs in the input list and is the only input bearing
its name, the input loop maps its name to exactly its value attribute. -/
theorem foldl_processInput_only_writer (msg : Msg) (f : InputField)
    (ht : inputType f = "hidden") (hn : inputName f ≠ "") :
    ∀ (l : List InputField) (m : FMap), f ∈ l →
      (∀ g ∈ l, inputName g = inputName f → g = f) →
      (l.foldl (processInput msg) m) (inputName f) =
        some ((f.value).getD "") := by
  intro l
  induction l with
  | nil => intro m h _; exact absurd h (List.not_mem_nil f)
  | cons g t ih =>
    intro m hmem hol
    simp only [List.foldl_cons]
    by_cases hg : inputName g = inputName f
    · have hgf : g = f := hol g (List.mem_cons_self _ _) hg
      subst hgf
      apply foldl_processInput_keep msg g ht hn
      · rw [processInput_hidden msg m g ht hn]
        simp [mUpd]
      · intro x hx he
        exact hol x (List.mem_cons_of_mem _ hx) he
    · rcases List.mem_cons.mp hmem with heq | hmem'
      · exact absurd (heq ▸ rfl) hg
      · exact ih _ hmem' (fun x hx he => hol x (List.mem_cons_of_mem _ hx) he)

/-! ### Claims about the Field Mapper -/

/-- The message used in concrete field-mapper evaluations. -/
def exMsg : Msg := ⟨"Subject line", "Body text"⟩

/-- A form holding a single text input named `customer_email_name`. -/
def c2_form : FormElem :=
  ⟨none, none, [],
   [⟨some "text", some "customer_email_name", none, none, none⟩], [], []⟩

/-- C2 counterexample: the mapping dict of `_prepare_form_data` is iterated
in insertion order and its first key is `name`, so the text input
`customer_email_name` — whose name contains both `name` and `email` —
receives the Name role's value `"John Smith"`, not the Email role's
value. -/
theorem c2_counterexample :
    prepare_form_data c2_form exMsg "customer_email_name" =
        some "John Smith" ∧
      ("John Smith" : String) ≠ "john.smith@example.com" := by
  constructor
  · decide
  · decide

/-- C2 (amended): for a field name containing `email` (case-insensitive),
`_get_field_value` returns the Email role's value only when the name does
not also contain the substring `name`; when it contains both (e.g.
`customer_email_name`), the `name` mapping key is checked first and the
Name role's value wins. -/
theorem c2_email_vs_name (fieldName : String) (msg : Msg)
    (he : strContains (lowerStr fieldName) "email" = true) :
    get_field_value fieldName msg =
      some (if strContains (lowerStr fieldName) "name" = true
            then "John Smith" else "john.smith@example.com") := by
  cases hn : strContains (lowerStr fieldName) "name" with
  | true => simp [get_field_value, field_mappings, findMapping, hn]
  | false => simp [get_field_value, field_mappings, findMapping, hn, he]

/-- C2 witness: a field named `customer_email` (contains `email`, not
`name`) receives the canned email address. -/
theorem c2_email_vs_name_witness :
    get_field_value "customer_email" exMsg =
      some (if strContains (lowerStr "customer_email") "name" = true
            then "John Smith" else "john.smith@example.com") :=
  c2_email_vs_name "customer_email" exMsg (by decide)

/-- A form holding a single unchecked checkbox named `news`. -/
def c6_form : FormElem :=
  ⟨none, none, [],
   [⟨some "checkbox", some "news", none, none, none⟩], [], []⟩

/-- C6 counterexample: a checkbox carrying no `checked` attribute is still
added to the submission map with value `"on"`, because the guard
`input_field.get('checked') or input_type == 'checkbox'` is true for every
checkbox. -/
theorem c6_counterexample :
    (⟨some "checkbox", some "news", none, none, none⟩ : InputField).checked
        = none ∧
      prepare_form_data c6_form exMsg "news" = some "on" := by
  constructor
  · rfl
  · decide

/-- C6 (amended): every checkbox with a non-empty name is included in the
submission map — with its `value` attribute, defaulting to `"on"` —
whether or not its `checked` attribute is present; the `checked` test only
restricts radio buttons. -/
theorem c6_checkbox_always_added :
    (∀ (msg : Msg) (m : FMap) (f : InputField),
        inputType f = "checkbox" → inputName f ≠ "" →
        processInput msg m f = mUpd m (inputName f) ((f.value).getD "on")) ∧
    (∀ (form : FormElem) (msg : Msg) (f : InputField),
        f ∈ form.inputs → inputType f = "checkbox" → inputName f ≠ "" →
        (prepare_form_data form msg (inputName f)).isSome = true) := by
  constructor
  · intro msg m f ht hn
    exact processInput_checkbox msg m f ht hn
  · intro form msg f hmem ht hn
    unfold prepare_form_data
    apply foldl_processSelect_pres
    apply foldl_processTextarea_pres
    exact foldl_processInput_mem_checkbox msg f ht hn form.inputs mEmpty hmem

/-- C6 witness: concrete unchecked checkbox processed alone, and the
whole-form map of `c6_form` holding its key. -/
theorem c6_checkbox_always_added_witness :
    processInput exMsg mEmpty
        ⟨some "checkbox", some "box", some "yes", none, none⟩ =
      mUpd mEmpty "box" "yes" ∧
    (prepare_form_data c6_form exMsg "news").isSome = true := by
  constructor
  · exact c6_checkbox_always_added.1 exMsg mEmpty
      ⟨some "checkbox", some "box", some "yes", none, none⟩
      (by decide) (by decide)
  · exact c6_checkbox_always_added.2 c6_form exMsg
      ⟨some "checkbox", some "news", none, none, none⟩
      (by decide) (by decide) (by decide)

/-- A form holding a single hidden anti-CSRF token field. -/
def c8_form : FormElem :=
  ⟨none, none, [],
   [⟨some "hidden", some "csrf_token", some "tok-123", none, none⟩], [], []⟩

/-- C8: a hidden input with a non-empty name is copied into the submission
map byte-for-byte: processing it maps its name to exactly its `value`
attribute (empty string when the attribute is absent) and touches no other
key; and when no other field of the form shares its name, that exact value
is what the finished map holds. -/
theorem c8_hidden_copied_verbatim :
    (∀ (msg : Msg) (m : FMap) (f : InputField) (k : String),
        inputType f = "hidden" → inputName f ≠ "" →
        processInput msg m f k =
          if k = inputName f then some ((f.value).getD "") else m k) ∧
    (∀ (form : FormElem) (msg : Msg) (f : InputField),
        f ∈ form.inputs → inputType f = "hidden" → inputName f ≠ "" →
        (∀ g ∈ form.inputs, inputName g = inputName f → g = f) →
        (∀ t ∈ form.textareas, taName t ≠ inputName f) →
        (∀ s ∈ form.selects, selName s ≠ inputName f) →
        prepare_form_data form msg (inputName f) =
          some ((f.value).getD "")) := by
  constructor
  · intro msg m f k ht hn
    rw [processInput_hidden msg m f ht hn]
    rfl
  · intro form msg f hmem ht hn honly hta hsel
    unfold prepare_form_data
    rw [foldl_processSelect_ne _ _ _ hsel, foldl_processTextarea_ne _ _ _ _ hta]
    exact foldl_processInput_only_writer msg f ht hn form.inputs mEmpty hmem honly

/-- C8 witness: the hidden token of `c8_form` survives into the finished
map unmodified, and a hidden field with no `value` attribute maps to the
empty string. -/
theorem c8_hidden_copied_verbatim_witness :
    processInput exMsg mEmpty
        ⟨some "hidden", some "h", none, none, none⟩ "h" = some "" ∧
    prepare_form_data c8_form exMsg "csrf_token" = some "tok-123" := by
  constructor
  · rw [c8_hidden_copied_verbatim.1 exMsg mEmpty
      ⟨some "hidden", some "h", none, none, none⟩ "h" (by decide) (by decide)]
    decide
  · exact c8_hidden_copied_verbatim.2 c8_form exMsg
      ⟨some "hidden", some "csrf_token", some "tok-123", none, none⟩
      (by decide) (by decide) (by decide) (by decide) (by decide) (by decide)

/-! ## `FormSubmitter._find_contact_form` (form_submitter.py 108-148) -/

/-- Contact-intent keywords (form_submitter.py 111-114). -/
def contact_indicators : List String :=
  ["contact", "message", "inquiry", "quote", "consultation",
   "appointment", "booking", "request", "form"]

/-- Some contact-intent keyword occurs in the given string. -/
def anyIndicator (s : String) : Bool :=
  contact_indicators.any (fun k => strContains s k)

/-- The attribute-level test of `_find_contact_form`: keyword in the
lowercased `action`, `id`, or space-joined `class`
(form_submitter.py 119-134). -/
def formAttrMatch (f : FormElem) : Bool :=
  anyIndicator (lowerStr ((f.action).getD "")) ||
  anyIndicator (lowerStr ((f.id).getD "")) ||
  anyIndicator (lowerStr (String.intercalate " " f.classes))

/-- The input-level test of `_find_contact_form`: some input whose
lowercased `name` or `placeholder` holds a keyword
(form_submitter.py 136-142). -/
def formInputMatch (f : FormElem) : Bool :=
  f.inputs.any (fun i =>
    contact_indicators.any (fun k =>
      strContains (lowerStr ((i.name).getD "")) k ||
      strContains (lowerStr ((i.placeholder).getD "")) k))

/-- The per-form test: the loop body of `_find_contact_form` returns the
current form as soon as either test holds. -/
def formMatches (f : FormElem) : Bool :=
  formAttrMatch f || formInputMatch f

/-- `FormSubmitter._find_contact_form` (form_submitter.py 108-148): one
pass over the forms in document order, returning the first form passing
any test, else the first form, else nothing. -/
def find_contact_form (forms : List FormElem) : Option FormElem :=
  match forms.find? formMatches with
  | some f => some f
  | none => forms.head?

/-- A form with no matching attribute but one contact-named input. -/
def c7_form_a : FormElem :=
  ⟨some "", none, [],
   [⟨some "text", some "contact_name", none, none, some ""⟩], [], []⟩

/-- A form whose `action` contains the keyword `contact`. -/
def c7_form_b : FormElem :=
  ⟨some "/contact", none, [], [], [], []⟩

/-- C7 counterexample: the locator does not prefer attribute-level matches
across the page.  With an input-level-only match first in document order
and an attribute-level match second, the first form is returned. -/
theorem c7_counterexample :
    formAttrMatch c7_form_a = false ∧
    formInputMatch c7_form_a = true ∧
    formAttrMatch c7_form_b = true ∧
    find_contact_form [c7_form_a, c7_form_b] = some c7_form_a ∧
    c7_form_a ≠ c7_form_b := by
  refine ⟨by decide, by decide, by decide, by decide, by decide⟩

/-- C7 (amended): the locator scans the forms once in document order and
returns the first form passing either test (attribute-level or
input-level, evaluated per form); if no form passes, the first form in
document order is returned; and a no-form result occurs exactly when the
page has no `<form>` element. -/
theorem c7_locator_first_match (forms : List FormElem) :
    (find_contact_form forms = none ↔ forms = []) ∧
    (∀ (pre post : List FormElem) (f : FormElem),
        forms = pre ++ f :: post → (∀ g ∈ pre, formMatches g = false) →
        formMatches f = true → find_contact_form forms = some f) ∧
    ((∀ g ∈ forms, formMatches g = false) →
        find_contact_form forms = forms.head?) := by
  refine ⟨?_, ?_, ?_⟩
  · constructor
    · intro h
      cases forms with
      | nil => rfl
      | cons g t =>
        unfold find_contact_form at h
        cases hf : (g :: t).find? formMatches with
        | some x => rw [hf] at h; exact absurd h (by simp)
        | none => rw [hf] at h; exact absurd h (by simp)
    · intro h
      subst h
      rfl
  · intro pre post f hsplit hpre hf
    subst hsplit
    unfold find_contact_form
    have hfind : (pre ++ f :: post).find? formMatches = some f := by
      induction pre with
      | nil => simp [List.find?_cons_of_pos, hf]
      | cons g t ih =>
        simp only [List.cons_append]
        rw [List.find?_cons_of_neg]
        · exact ih (fun x hx => hpre x (List.mem_cons_of_mem _ hx))
        · simp [hpre g (List.mem_cons_self _ _)]
    rw [hfind]
  · intro h
    unfold find_contact_form
    have hfind : forms.find? formMatches = none := by
      rw [List.find?_eq_none]
      intro x hx
      simp [h x hx]
    rw [hfind]

/-- C7 witness: the amended statement applied to a concrete two-form page
(first-match behaviour) and to the empty page (no-form behaviour). -/
theorem c7_locator_first_match_witness :
    find_contact_form [c7_form_a, c7_form_b] = some c7_form_a ∧
    find_contact_form [] = none := by
  constructor
  · exact (c7_locator_first_match [c7_form_a, c7_form_b]).2.1 [] [c7_form_b]
      c7_form_a rfl (by intro g hg; exact absurd hg (List.not_mem_nil g))
      (by decide)
  · exact (c7_locator_first_match []).1.mpr rfl

/-! ## `FormSubmitter._handle_captcha` and the submission path
(form_submitter.py 56-98 and 236-265) -/

/-- The dict returned by `CaptchaSolver.detect_captcha_type`
(captcha_solver.py 277-326). -/
structure CaptchaInfo where
  has_captcha : Bool
  ctype : Option String
  site_key : Option String
  image_src : Option String
deriving DecidableEq

/-- Python truthiness of an optional dict (modelled as an association
list): `None` and `{}` are falsy. -/
def optListTruthy : Option (List (String × String)) → Bool
  | none => false
  | some l => !l.isEmpty

/-- `FormSubmitter._handle_captcha` (form_submitter.py 236-265).  The
solver calls are abstracted by their results: `recaptchaSolve` is what
`solve_recaptcha` returned, `imageFetchStatus` the status of the CAPTCHA
image download, `imageSolve` what `solve_image_captcha` returned, and
`captchaInputName` the name of the CAPTCHA `<input>` found on the page
(`none` when absent).  Every falsy step falls through to `return None`. -/
def handle_captcha (info : CaptchaInfo) (recaptchaSolve : Option String)
    (imageFetchStatus : Nat) (imageSolve : Option String)
    (captchaInputName : Option String) : Option (List (String × String)) :=
  if info.ctype = some "recaptcha" then
    if optTruthy info.site_key = true then
      if optTruthy recaptchaSolve = true then
        some [("g-recaptcha-response", recaptchaSolve.getD "")]
      else none
    else none
  else if info.ctype = some "image" then
    if optTruthy info.image_src = true then
      if imageFetchStatus = 200 then
        if optTruthy imageSolve = true then
          match captchaInputName with
          | some nm => some [(nm, imageSolve.getD "")]
          | none => none
        else none
      else none
    else none
  else none

/-- The result record of a submission attempt (`models.ContactForm` with
its Pydantic defaults: `form_fields = {}`, `submitted = False`). -/
structure ContactFormR where
  url : String
  form_fields : FMap
  has_captcha : Bool
  captcha_type : Option String
  submitted : Bool
  error_message : Option String

/-- A submission attempt's outcome together with whether the POST request
was performed. -/
structure SubmitStep where
  result : ContactFormR
  posted : Bool

/-- `dict.update` folded over the CAPTCHA solution pairs. -/
def dictUpdate (m : FMap) (upd : List (String × String)) : FMap :=
  upd.foldl (fun acc p => mUpd acc p.1 p.2) m

/-- The tail of `FormSubmitter.submit_contact_form` after the form is
located and `form_data` prepared (form_submitter.py 62-98): if a CAPTCHA
was detected and the solution is falsy, return a failed `ContactForm`
without posting; otherwise POST and classify the response. -/
def finishSubmission (formUrl : String) (info : CaptchaInfo) (formData : FMap)
    (captchaSolution : Option (List (String × String)))
    (postStatus : Nat) (postBody : String) : SubmitStep :=
  if info.has_captcha = true ∧ optListTruthy captchaSolution = false then
    { result := { url := formUrl, form_fields := mEmpty, has_captcha := true,
                  captcha_type := info.ctype, submitted := false,
                  error_message := some "Failed to solve CAPTCHA" },
      posted := false }
  else
    let data :=
      if info.has_captcha = true then dictUpdate formData (captchaSolution.getD [])
      else formData
    let success := check_submission_success postStatus postBody
    { result := { url := formUrl, form_fields := data,
                  has_captcha := info.has_captcha,
                  captcha_type := info.ctype, submitted := success,
                  error_message :=
                    if success then none else some "Form submission failed" },
      posted := true }

/-- C3: when a CAPTCHA is detected but no solution is obtained (both
solver paths return `None` — failure, timeout, or an unsolvable challenge
kind), `_handle_captcha` yields `None` and the submission path returns a
`ContactForm` with `submitted = false`, `has_captcha = true` and the
CAPTCHA failure message, without performing the POST request. -/
theorem c3_captcha_failure_blocks_post (formUrl : String) (info : CaptchaInfo)
    (formData : FMap) (imageFetchStatus : Nat)
    (captchaInputName : Option String) (postStatus : Nat) (postBody : String)
    (hc : info.has_captcha = true) :
    handle_captcha info none imageFetchStatus none captchaInputName = none ∧
    (let step := finishSubmission formUrl info formData
        (handle_captcha info none imageFetchStatus none captchaInputName)
        postStatus postBody
     step.posted = false ∧
     step.result.submitted = false ∧
     step.result.has_captcha = true ∧
     step.result.error_message = some "Failed to solve CAPTCHA" ∧
     step.result.captcha_type = info.ctype) := by
  have hnone :
      handle_captcha info none imageFetchStatus none captchaInputName = none := by
    unfold handle_captcha
    split_ifs <;> simp_all [optTruthy]
  refine ⟨hnone, ?_⟩
  rw [hnone]
  unfold finishSubmission
  rw [if_pos ⟨hc, rfl⟩]
  exact ⟨rfl, rfl, rfl, rfl, rfl⟩

/-- C3 witness: a concrete detected ReCaptcha whose solver returned
nothing — the attempt fails with the CAPTCHA message and no POST. -/
theorem c3_captcha_failure_blocks_post_witness :
    handle_captcha ⟨true, some "recaptcha", some "sitekey-1", none⟩
        none 200 none none = none ∧
    (let step := finishSubmission "https://ex.com/contact"
        ⟨true, some "recaptcha", some "sitekey-1", none⟩ mEmpty
        (handle_captcha ⟨true, some "recaptcha", some "sitekey-1", none⟩
          none 200 none none)
        200 "thank you"
     step.posted = false ∧
     step.result.submitted = false ∧
     step.result.has_captcha = true ∧
     step.result.error_message = some "Failed to solve CAPTCHA" ∧
     step.result.captcha_type = some "recaptcha") :=
  c3_captcha_failure_blocks_post "https://ex.com/contact"
    ⟨true, some "recaptcha", some "sitekey-1", none⟩ mEmpty 200 none
    200 "thank you" rfl

/-! ## `CaptchaSolver._solve_2captcha_image` / `_solve_2captcha_recaptcha`
(captcha_solver.py 63-169) -/

/-- The JSON body of one `res.php` poll: its `status` and `request`
fields. -/
structure PollResp where
  status : Option Nat
  request : Option String
deriving DecidableEq

/-- What one poll response makes the loop do (captcha_solver.py 101-109
and 154-162): `status == 1` yields the solved token (a missing `request`
field would raise and abort); `request == 'CAPCHA_NOT_READY'` continues;
anything else aborts. -/
inductive StepKind where
  | ready (tok : String)
  | notReady
  | hardFail
deriving DecidableEq

/-- Classify a poll response exactly as the loop body's branches do. -/
def classifyPoll (r : PollResp) : StepKind :=
  if r.status = some 1 then
    match r.request with
    | some tok => StepKind.ready tok
    | none => StepKind.hardFail
  else if r.request = some "CAPCHA_NOT_READY" then StepKind.notReady
  else StepKind.hardFail

/-- How a solving run ends. -/
inductive SolveOutcome where
  | solved (tok : String)
  | hardFail
  | timedOut
deriving DecidableEq

/-- The fixed poll interval: `time.sleep(10)` at the top of every loop
iteration (captcha_solver.py 89 and 142). -/
def pollInterval : Nat := 10

/-- The polling loop: `fuel` iterations remain, `polls` polls were already
performed, `t` seconds have elapsed sleeping.  Each iteration first sleeps
`pollInterval` seconds, then issues poll number `polls` and branches on
the response; exhausted fuel is the timeout path after the loop.  Returns
the outcome, the total number of polls performed and the total seconds
slept. -/
def pollLoop (resp : Nat → PollResp) :
    Nat → Nat → Nat → SolveOutcome × Nat × Nat
  | 0, polls, t => (SolveOutcome.timedOut, polls, t)
  | Nat.succ fuel, polls, t =>
    match classifyPoll (resp polls) with
    | StepKind.ready tok => (SolveOutcome.solved tok, polls + 1, t + pollInterval)
    | StepKind.notReady => pollLoop resp fuel (polls + 1) (t + pollInterval)
    | StepKind.hardFail => (SolveOutcome.hardFail, polls + 1, t + pollInterval)

/-- The polling phase of `_solve_2captcha_image`: `for _ in range(30)`
(captcha_solver.py 88-112). -/
def solve_2captcha_image_poll (resp : Nat → PollResp) :
    SolveOutcome × Nat × Nat :=
  pollLoop resp 30 0 0

/-- The polling phase of `_solve_2captcha_recaptcha`: `for _ in range(60)`
(captcha_solver.py 141-165). -/
def solve_2captcha_recaptcha_poll (resp : Nat → PollResp) :
    SolveOutcome × Nat × Nat :=
  pollLoop resp 60 0 0

/-- A never-ready response stream exhausts the fuel: exactly `fuel` more
polls, ten seconds of sleep each, then timeout. -/
theorem pollLoop_all_notReady (resp : Nat → PollResp)
    (h : ∀ i, classifyPoll (resp i) = StepKind.notReady) :
    ∀ (fuel polls t : Nat),
      pollLoop resp fuel polls t =
        (SolveOutcome.timedOut, polls + fuel, t + pollInterval * fuel) := by
  intro fuel
  induction fuel with
  | zero => intro polls t; simp [pollLoop]
  | succ n ih =>
    intro polls t
    simp only [pollLoop, h polls]
    rw [ih (polls + 1) (t + pollInterval)]
    refine congrArg (fun z => (SolveOutcome.timedOut, z)) ?_
    refine congrArg₂ Prod.mk (by omega) ?_
    simp [pollInterval]
    omega

/-- A ready response at relative poll `k` (after `k` not-ready polls)
stops the loop at once with the token, after `k + 1` polls. -/
theorem pollLoop_ready_at (resp : Nat → PollResp) (tok : String) :
    ∀ (k fuel polls t : Nat), k < fuel →
      (∀ i, i < k → classifyPoll (resp (polls + i)) = StepKind.notReady) →
      classifyPoll (resp (polls + k)) = StepKind.ready tok →
      pollLoop resp fuel polls t =
        (SolveOutcome.solved tok, polls + k + 1, t + pollInterval * (k + 1)) := by
  intro k
  induction k with
  | zero =>
    intro fuel polls t hk hpre hr
    cases fuel with
    | zero => omega
    | succ n =>
      simp only [Nat.add_zero] at hr
      simp [pollLoop, hr, pollInterval]
  | succ k ih =>
    intro fuel polls t hk hpre hr
    cases fuel with
    | zero => omega
    | succ n =>
      have h0 : classifyPoll (resp polls) = StepKind.notReady := by
        have := hpre 0 (by omega)
        simpa using this
      simp only [pollLoop, h0]
      have hpre' : ∀ i, i < k →
          classifyPoll (resp (polls + 1 + i)) = StepKind.notReady := by
        intro i hi
        have := hpre (i + 1) (by omega)
        have harr : polls + (i + 1) = polls + 1 + i := by omega
        rwa [harr] at this
      have hr' : classifyPoll (resp (polls + 1 + k)) = StepKind.ready tok := by
        have harr : polls + (k + 1) = polls + 1 + k := by omega
        rwa [harr] at hr
      rw [ih n (polls + 1) (t + pollInterval) (by omega) hpre' hr']
      refine congrArg (fun z => (SolveOutcome.solved tok, z)) ?_
      refine congrArg₂ Prod.mk (by omega) ?_
      simp [pollInterval]
      omega

/-- A hard-failure response at relative poll `k` (after `k` not-ready
polls) aborts the loop at once, after `k + 1` polls. -/
theorem pollLoop_fail_at (resp : Nat → PollResp) :
    ∀ (k fuel polls t : Nat), k < fuel →
      (∀ i, i < k → classifyPoll (resp (polls + i)) = StepKind.notReady) →
      classifyPoll (resp (polls + k)) = StepKind.hardFail →
      pollLoop resp fuel polls t =
        (SolveOutcome.hardFail, polls + k + 1, t + pollInterval * (k + 1)) := by
  intro k
  induction k with
  | zero =>
    intro fuel polls t hk hpre hr
    cases fuel with
    | zero => omega
    | succ n =>
      simp only [Nat.add_zero] at hr
      simp [pollLoop, hr, pollInterval]
  | succ k ih =>
    intro fuel polls t hk hpre hr
    cases fuel with
    | zero => omega
    | succ n =>
      have h0 : classifyPoll (resp polls) = StepKind.notReady := by
        have := hpre 0 (by omega)
        simpa using this
      simp only [pollLoop, h0]
      have hpre' : ∀ i, i < k →
          classifyPoll (resp (polls + 1 + i)) = StepKind.notReady := by
        intro i hi
        have := hpre (i + 1) (by omega)
        have harr : polls + (i + 1) = polls + 1 + i := by omega
        rwa [harr] at this
      have hr' : classifyPoll (resp (polls + 1 + k)) = StepKind.hardFail := by
        have harr : polls + (k + 1) = polls + 1 + k := by omega
        rwa [harr] at hr
      rw [ih n (polls + 1) (t + pollInterval) (by omega) hpre' hr']
      refine congrArg (fun z => (SolveOutcome.hardFail, z)) ?_
      refine congrArg₂ Prod.mk (by omega) ?_
      simp [pollInterval]
      omega

/-- The loop never performs more polls than it has fuel. -/
theorem pollLoop_polls_le (resp : Nat → PollResp) :
    ∀ (fuel polls t : Nat),
      (pollLoop resp fuel polls t).2.1 ≤ polls + fuel := by
  intro fuel
  induction fuel with
  | zero => intro polls t; simp [pollLoop]
  | succ n ih =>
    intro polls t
    simp only [pollLoop]
    cases hc : classifyPoll (resp polls) with
    | ready tok => simp
    | notReady =>
      exact Nat.le_trans (ih (polls + 1) (t + pollInterval)) (by omega)
    | hardFail => simp

/-- C4: the 2Captcha polling loops sleep 10 seconds before every poll,
poll at most 30 times for image challenges and at most 60 times for
ReCaptcha challenges; a not-ready poll continues, a ready poll returns
the token immediately, any other poll aborts immediately, and a stub that
never reports ready times out after exactly the configured number of
polls (300 s of sleep for images, 600 s for ReCaptcha). -/
theorem c4_polling_loop_spec :
    (∀ resp : Nat → PollResp,
        (∀ i, classifyPoll (resp i) = StepKind.notReady) →
        solve_2captcha_image_poll resp = (SolveOutcome.timedOut, 30, 300) ∧
        solve_2captcha_recaptcha_poll resp = (SolveOutcome.timedOut, 60, 600)) ∧
    (∀ (resp : Nat → PollResp) (fuel k : Nat) (tok : String), k < fuel →
        (∀ i, i < k → classifyPoll (resp i) = StepKind.notReady) →
        classifyPoll (resp k) = StepKind.ready tok →
        pollLoop resp fuel 0 0 =
          (SolveOutcome.solved tok, k + 1, 10 * (k + 1))) ∧
    (∀ (resp : Nat → PollResp) (fuel k : Nat), k < fuel →
        (∀ i, i < k → classifyPoll (resp i) = StepKind.notReady) →
        classifyPoll (resp k) = StepKind.hardFail →
        pollLoop resp fuel 0 0 =
          (SolveOutcome.hardFail, k + 1, 10 * (k + 1))) ∧
    (∀ resp : Nat → PollResp,
        (solve_2captcha_image_poll resp).2.1 ≤ 30 ∧
        (solve_2captcha_recaptcha_poll resp).2.1 ≤ 60) := by
  refine ⟨?_, ?_, ?_, ?_⟩
  · intro resp h
    constructor
    · simpa [pollInterval] using pollLoop_all_notReady resp h 30 0 0
    · simpa [pollInterval] using pollLoop_all_notReady resp h 60 0 0
  · intro resp fuel k tok hk hpre hr
    have := pollLoop_ready_at resp tok k fuel 0 0 hk
      (fun i hi => by simpa using hpre i hi) (by simpa using hr)
    simpa [pollInterval] using this
  · intro resp fuel k hk hpre hr
    have := pollLoop_fail_at resp k fuel 0 0 hk
      (fun i hi => by simpa using hpre i hi) (by simpa using hr)
    simpa [pollInterval] using this
  · intro resp
    exact ⟨pollLoop_polls_le resp 30 0 0, pollLoop_polls_le resp 60 0 0⟩

/-- A stub that never reports ready. -/
def c4_notReadyResp : Nat → PollResp :=
  fun _ => ⟨some 0, some "CAPCHA_NOT_READY"⟩

/-- A stub that is ready with a token on the third poll. -/
def c4_readyResp : Nat → PollResp :=
  fun i => if i < 2 then ⟨some 0, some "CAPCHA_NOT_READY"⟩
           else ⟨some 1, some "TOKEN42"⟩

/-- A stub whose second poll reports an unexpected error. -/
def c4_failResp : Nat → PollResp :=
  fun i => if i < 1 then ⟨some 0, some "CAPCHA_NOT_READY"⟩
           else ⟨some 0, some "ERROR_WRONG_USER_KEY"⟩

/-- C4 witness: the never-ready stub times out after exactly 30 polls
(image) and 60 polls (ReCaptcha); a stub ready on poll 3 stops there with
the token; a stub failing on poll 2 aborts there. -/
theorem c4_polling_loop_spec_witness :
    solve_2captcha_image_poll c4_notReadyResp =
      (SolveOutcome.timedOut, 30, 300) ∧
    solve_2captcha_recaptcha_poll c4_notReadyResp =
      (SolveOutcome.timedOut, 60, 600) ∧
    pollLoop c4_readyResp 30 0 0 = (SolveOutcome.solved "TOKEN42", 3, 30) ∧
    pollLoop c4_failResp 60 0 0 = (SolveOutcome.hardFail, 2, 20) := by
  refine ⟨?_, ?_, ?_, ?_⟩
  · exact (c4_polling_loop_spec.1 c4_notReadyResp (fun _ => rfl)).1
  · exact (c4_polling_loop_spec.1 c4_notReadyResp (fun _ => rfl)).2
  · have := c4_polling_loop_spec.2.1 c4_readyResp 30 2 "TOKEN42" (by omega)
      (fun i hi => by interval_cases i <;> decide) (by decide)
    simpa using this
  · have := c4_polling_loop_spec.2.2.1 c4_failResp 60 1 (by omega)
      (fun i hi => by interval_cases i; decide) (by decide)
    simpa using this

/-! ## `RateLimiter` (discovery.py 489-520) -/

/-- `RateLimiter` state (discovery.py 492-496): the configured QPS values,
the last global call time (starting at 0) and the per-domain dict. -/
structure RateLimiter where
  global_qps : Rat
  per_domain_qps : Rat
  last_global_call : Rat
  domain_calls : String → Option Rat

/-- `RateLimiter.wait` (discovery.py 498-507), with the wall clock made
explicit: read `now`, sleep the remaining interval if any, then store a
fresh `time.time()` reading.  Returns the new state and the clock at
return. -/
def rl_wait (s : RateLimiter) (clock : Rat) : RateLimiter × Rat :=
  let now := clock
  let min_interval := 1 / s.global_qps
  let clock2 :=
    if now - s.last_global_call < min_interval then
      clock + (min_interval - (now - s.last_global_call))
    else clock
  ({ s with last_global_call := clock2 }, clock2)

/-- `RateLimiter.wait_for_domain` (discovery.py 509-519): read `now`,
sleep the remaining per-domain interval if any, then store the `now` read
at the start of the call (not a fresh reading).  Returns the new state
and the clock at return. -/
def rl_wait_for_domain (s : RateLimiter) (domain : String) (clock : Rat) :
    RateLimiter × Rat :=
  let now := clock
  let min_interval := 1 / s.per_domain_qps
  let clock2 :=
    match s.domain_calls domain with
    | some last =>
      if now - last < min_interval then clock + (min_interval - (now - last))
      else clock
    | none => clock
  ({ s with domain_calls :=
      fun d => if d = domain then some now else s.domain_calls d },
   clock2)

/-- A limiter (2 QPS per domain) that served domain `"a"` at time 0. -/
def c5_rl : RateLimiter :=
  ⟨5, 2, 0, fun d => if d = "a" then some 0 else none⟩

/-- C5 counterexample: calling `wait_for_domain("a")` at time 1/10 sleeps
until time 1/2, yet records 1/10 — the time the call started waiting, not
the time immediately before it returns — so the per-domain half of the
claim is false. -/
theorem c5_counterexample :
    (rl_wait_for_domain c5_rl "a" (1/10)).2 = 1/2 ∧
    (rl_wait_for_domain c5_rl "a" (1/10)).1.domain_calls "a" = some (1/10) ∧
    ((1 : Rat)/10) ≠ 1/2 := by
  refine ⟨?_, ?_, by norm_num⟩
  · simp only [rl_wait_for_domain, c5_rl]
    norm_num
  · simp [rl_wait_for_domain, c5_rl]

/-- C5 (amended): `wait()` does update the global timestamp to the time
immediately before returning (a fresh reading taken after any sleep), but
`wait_for_domain(domain)` records the time at which the call started
waiting (the reading taken before the sleep), not the time control is
returned. -/
theorem c5_timestamp_discipline (s : RateLimiter) (domain : String)
    (clock : Rat) :
    ((rl_wait s clock).1.last_global_call = (rl_wait s clock).2) ∧
    ((rl_wait_for_domain s domain clock).1.domain_calls domain = some clock) := by
  constructor
  · rfl
  · simp [rl_wait_for_domain]
